import Mathlib

/-!
Shallow embedding of the eye gaze tracker core of this repository
(gaze_tracker.py, calibration.py, visual_assessment.py) over exact
rational arithmetic.  Python float arithmetic is modelled by rationals.
The numpy square root, used only to turn a squared distance into a
norm, is threaded through as an explicit function parameter named sq;
theorems that depend on its behaviour state the needed property of sq
as a hypothesis.
-/

/-- A 2D vector, modelling a numpy array of shape (2,). -/
abbrev Vec2 := ℚ × ℚ

/-- Python int() applied to a rational: truncation toward zero. -/
def pyInt (q : ℚ) : ℤ := if q < 0 then ⌈q⌉ else ⌊q⌋

/-- np.clip for scalars: clip x into the interval from lo to hi. -/
def clip (x lo hi : ℚ) : ℚ := max lo (min hi x)

/-- np.mean of a list of rationals (sum divided by length). -/
def meanQ (l : List ℚ) : ℚ := l.sum / l.length

/-- np.dot of two coefficient vectors given as lists. -/
def dotL (a b : List ℚ) : ℚ := (List.zipWith (fun x y => x * y) a b).sum

/-- State transition matrix of the constant velocity model (field F of
both filter classes in gaze_tracker.py). -/
def Fmat : Matrix (Fin 4) (Fin 4) ℚ :=
  !![1, 0, 1, 0; 0, 1, 0, 1; 0, 0, 1, 0; 0, 0, 0, 1]

/-- Measurement matrix observing position only (field H of both filter
classes in gaze_tracker.py). -/
def Hmat : Matrix (Fin 2) (Fin 4) ℚ := !![1, 0, 0, 0; 0, 1, 0, 0]

/-- Explicit 2 by 2 matrix inverse, modelling np.linalg.inv applied to
the 2 by 2 innovation covariance S.  When the determinant is zero the
rational convention 1 / 0 = 0 stands in for the numpy singular matrix
error; no claim exercises that case. -/
def inv2 (S : Matrix (Fin 2) (Fin 2) ℚ) : Matrix (Fin 2) (Fin 2) ℚ :=
  (1 / (S 0 0 * S 1 1 - S 0 1 * S 1 0)) • !![S 1 1, -(S 0 1); -(S 1 0), S 0 0]

/-- KalmanFilter2D from gaze_tracker.py: state [x, y, vx, vy], process
noise Q, measurement noise R, covariance P, and the initialized flag. -/
structure KalmanFilter2D where
  state : Fin 4 → ℚ
  baseProcessNoise : ℚ
  baseMeasurementNoise : ℚ
  Q : Matrix (Fin 4) (Fin 4) ℚ
  R : Matrix (Fin 2) (Fin 2) ℚ
  P : Matrix (Fin 4) (Fin 4) ℚ
  initialized : Bool

/-- KalmanFilter2D constructor. -/
def kalmanInit (processNoise measurementNoise : ℚ) : KalmanFilter2D :=
  { state := fun _ => 0
    baseProcessNoise := processNoise
    baseMeasurementNoise := measurementNoise
    Q := processNoise • (1 : Matrix (Fin 4) (Fin 4) ℚ)
    R := measurementNoise • (1 : Matrix (Fin 2) (Fin 2) ℚ)
    P := 1
    initialized := false }

/-- KalmanFilter2D.predict: a no-op before the first measurement,
otherwise advances state by F and covariance by F P Ft + Q. -/
def kalmanPredict (kf : KalmanFilter2D) : Vec2 × KalmanFilter2D :=
  if kf.initialized = false then ((kf.state 0, kf.state 1), kf)
  else
    let s := Fmat.mulVec kf.state
    let P2 := Fmat * kf.P * Fmat.transpose + kf.Q
    ((s 0, s 1), { kf with state := s, P := P2 })

/-- KalmanFilter2D.update: on the first call copies the measurement
into the position components, marks the filter initialized and returns
the raw measurement; afterwards runs predict and the standard Kalman
gain update. -/
def kalmanUpdate (kf : KalmanFilter2D) (m : Vec2) : Vec2 × KalmanFilter2D :=
  if kf.initialized = false then
    (m, { kf with
            state := fun i => if i = 0 then m.1 else if i = 1 then m.2 else kf.state i
            initialized := true })
  else
    let kf1 := (kalmanPredict kf).2
    let S := Hmat * kf1.P * Hmat.transpose + kf1.R
    let K := kf1.P * Hmat.transpose * inv2 S
    let innov : Fin 2 → ℚ := fun j => (if j = 0 then m.1 else m.2) - (Hmat.mulVec kf1.state) j
    let s2 : Fin 4 → ℚ := fun i => kf1.state i + (K.mulVec innov) i
    let P2 := ((1 : Matrix (Fin 4) (Fin 4) ℚ) - K * Hmat) * kf1.P
    ((s2 0, s2 1), { kf1 with state := s2, P := P2 })

/-- KalmanFilter2D.reset: zero state, identity covariance, not
initialized. -/
def kalmanReset (kf : KalmanFilter2D) : KalmanFilter2D :=
  { kf with state := fun _ => 0, P := 1, initialized := false }

/-- The velocity_history_size constant of AdaptiveKalmanFilter2D. -/
def velocityHistorySize : ℕ := 5

/-- AdaptiveKalmanFilter2D from gaze_tracker.py: same state model as
KalmanFilter2D plus the velocity schedule parameters, the velocity
history and the monitoring fields for the current noise values. -/
structure AdaptiveKalmanFilter2D where
  state : Fin 4 → ℚ
  baseProcessNoise : ℚ
  baseMeasurementNoise : ℚ
  lowVelocityThreshold : ℚ
  highVelocityThreshold : ℚ
  dwellMeasurementMultiplier : ℚ
  rapidMeasurementMultiplier : ℚ
  Q : Matrix (Fin 4) (Fin 4) ℚ
  R : Matrix (Fin 2) (Fin 2) ℚ
  P : Matrix (Fin 4) (Fin 4) ℚ
  initialized : Bool
  velocityHistory : List ℚ
  currentMeasurementNoise : ℚ
  currentProcessNoise : ℚ

/-- AdaptiveKalmanFilter2D constructor. -/
def adaptiveInit (bpn bmn low high dwell rapid : ℚ) : AdaptiveKalmanFilter2D :=
  { state := fun _ => 0
    baseProcessNoise := bpn
    baseMeasurementNoise := bmn
    lowVelocityThreshold := low
    highVelocityThreshold := high
    dwellMeasurementMultiplier := dwell
    rapidMeasurementMultiplier := rapid
    Q := bpn • (1 : Matrix (Fin 4) (Fin 4) ℚ)
    R := bmn • (1 : Matrix (Fin 2) (Fin 2) ℚ)
    P := 1
    initialized := false
    velocityHistory := []
    currentMeasurementNoise := bmn
    currentProcessNoise := bpn }

/-- AdaptiveKalmanFilter2D._get_velocity: magnitude of the velocity
components of the state. -/
def adaptiveGetVelocity (sq : ℚ → ℚ) (f : AdaptiveKalmanFilter2D) : ℚ :=
  sq (f.state 2 ^ 2 + f.state 3 ^ 2)

/-- AdaptiveKalmanFilter2D._get_smoothed_velocity: mean of the velocity
history, or the instantaneous velocity when the history is empty. -/
def adaptiveGetSmoothedVelocity (sq : ℚ → ℚ) (f : AdaptiveKalmanFilter2D) : ℚ :=
  if f.velocityHistory = [] then adaptiveGetVelocity sq f
  else meanQ f.velocityHistory

/-- AdaptiveKalmanFilter2D._update_velocity_history: append the current
velocity magnitude, then drop the oldest entry when the length exceeds
velocity_history_size. -/
def adaptiveUpdateVelocityHistory (sq : ℚ → ℚ) (f : AdaptiveKalmanFilter2D) :
    AdaptiveKalmanFilter2D :=
  let h := f.velocityHistory ++ [adaptiveGetVelocity sq f]
  { f with velocityHistory := if velocityHistorySize < h.length then h.drop 1 else h }

/-- The three-zone measurement noise multiplier of
AdaptiveKalmanFilter2D._get_adaptive_measurement_noise as a function of
the smoothed velocity. -/
def adaptiveMultiplier (low high dwell rapid velocity : ℚ) : ℚ :=
  if velocity ≤ low then dwell
  else if high ≤ velocity then rapid
  else
    let t := (velocity - low) / (high - low)
    let smoothT := t * t * (3 - 2 * t)
    dwell + smoothT * (rapid - dwell)

/-- AdaptiveKalmanFilter2D._get_adaptive_measurement_noise: the scalar
written to current_measurement_noise (the returned matrix is this
scalar times the 2 by 2 identity). -/
def adaptiveMeasurementNoiseScalar (sq : ℚ → ℚ) (f : AdaptiveKalmanFilter2D) : ℚ :=
  f.baseMeasurementNoise *
    adaptiveMultiplier f.lowVelocityThreshold f.highVelocityThreshold
      f.dwellMeasurementMultiplier f.rapidMeasurementMultiplier
      (adaptiveGetSmoothedVelocity sq f)

/-- AdaptiveKalmanFilter2D._get_adaptive_process_noise: the scalar
written to current_process_noise. -/
def adaptiveProcessNoiseScalar (sq : ℚ → ℚ) (f : AdaptiveKalmanFilter2D) : ℚ :=
  f.baseProcessNoise *
    clip (adaptiveGetSmoothedVelocity sq f / f.highVelocityThreshold) (1 / 2) 2

/-- AdaptiveKalmanFilter2D.predict: recomputes Q adaptively, then the
same prediction step as the plain filter. -/
def adaptivePredict (sq : ℚ → ℚ) (f : AdaptiveKalmanFilter2D) :
    Vec2 × AdaptiveKalmanFilter2D :=
  if f.initialized = false then ((f.state 0, f.state 1), f)
  else
    let qn := adaptiveProcessNoiseScalar sq f
    let Q2 := qn • (1 : Matrix (Fin 4) (Fin 4) ℚ)
    let s := Fmat.mulVec f.state
    let P2 := Fmat * f.P * Fmat.transpose + Q2
    ((s 0, s 1), { f with state := s, P := P2, Q := Q2, currentProcessNoise := qn })

/-- The predict, adaptive measurement noise and Kalman gain portion of
AdaptiveKalmanFilter2D.update (everything of the initialized branch up
to, but not including, the velocity history update). -/
def adaptiveGainStep (sq : ℚ → ℚ) (f : AdaptiveKalmanFilter2D) (m : Vec2) :
    AdaptiveKalmanFilter2D :=
  let f1 := (adaptivePredict sq f).2
  let rn := adaptiveMeasurementNoiseScalar sq f1
  let f2 := { f1 with R := rn • (1 : Matrix (Fin 2) (Fin 2) ℚ),
                      currentMeasurementNoise := rn }
  let S := Hmat * f2.P * Hmat.transpose + f2.R
  let K := f2.P * Hmat.transpose * inv2 S
  let innov : Fin 2 → ℚ := fun j => (if j = 0 then m.1 else m.2) - (Hmat.mulVec f2.state) j
  let s2 : Fin 4 → ℚ := fun i => f2.state i + (K.mulVec innov) i
  let P2 := ((1 : Matrix (Fin 4) (Fin 4) ℚ) - K * Hmat) * f2.P
  { f2 with state := s2, P := P2 }

/-- AdaptiveKalmanFilter2D.update: first call bypasses the filter like
the plain filter; afterwards predict, adaptive R, Kalman gain update,
and one velocity history append. -/
def adaptiveUpdate (sq : ℚ → ℚ) (f : AdaptiveKalmanFilter2D) (m : Vec2) :
    Vec2 × AdaptiveKalmanFilter2D :=
  if f.initialized = false then
    (m, { f with
            state := fun i => if i = 0 then m.1 else if i = 1 then m.2 else f.state i
            initialized := true })
  else
    let f3 := adaptiveGainStep sq f m
    let f4 := adaptiveUpdateVelocityHistory sq f3
    ((f3.state 0, f3.state 1), f4)

/-- AdaptiveKalmanFilter2D.reset: zero state, identity covariance, not
initialized, empty velocity history, current noises back to base. -/
def adaptiveReset (f : AdaptiveKalmanFilter2D) : AdaptiveKalmanFilter2D :=
  { f with state := fun _ => 0, P := 1, initialized := false,
           velocityHistory := [],
           currentMeasurementNoise := f.baseMeasurementNoise,
           currentProcessNoise := f.baseProcessNoise }

/-- EyeGazeTracker landmark index constants. -/
def LEFT_EYE_OUTER : ℕ := 33

/-- EyeGazeTracker landmark index constant. -/
def LEFT_EYE_INNER : ℕ := 133

/-- EyeGazeTracker landmark index constant. -/
def LEFT_IRIS_CENTER : ℕ := 468

/-- EyeGazeTracker landmark index constant. -/
def RIGHT_EYE_OUTER : ℕ := 362

/-- EyeGazeTracker landmark index constant. -/
def RIGHT_EYE_INNER : ℕ := 263

/-- EyeGazeTracker landmark index constant. -/
def RIGHT_IRIS_CENTER : ℕ := 473

/-- EyeGazeTracker landmark index constant. -/
def LEFT_EYE_TOP : ℕ := 159

/-- EyeGazeTracker landmark index constant. -/
def LEFT_EYE_BOTTOM : ℕ := 145

/-- EyeGazeTracker landmark index constant. -/
def RIGHT_EYE_TOP : ℕ := 386

/-- EyeGazeTracker landmark index constant. -/
def RIGHT_EYE_BOTTOM : ℕ := 374

/-- A MediaPipe normalized landmark: fields x and y in [0, 1]. -/
structure Landmark where
  x : ℚ
  y : ℚ
deriving DecidableEq

/-- EyeGazeTracker._get_iris_position.  Landmark indexing is modelled
with List.get?; a failing lookup models the IndexError caught by the
try/except, yielding none.  The eye width in the source is the
euclidean norm of the corner difference; here it is sq applied to the
squared norm, with sq the numpy square root parameter. -/
def getIrisPosition (sq : ℚ → ℚ) (lms : List Landmark)
    (eyeOuterIdx eyeInnerIdx irisCenterIdx : ℕ)
    (frameWidth frameHeight sensitivityX sensitivityY offsetX offsetY : ℚ) :
    Option (Vec2 × Vec2) :=
  match lms.get? eyeOuterIdx, lms.get? eyeInnerIdx with
  | some outer, some inner =>
    let outerPx : Vec2 := (outer.x * frameWidth, outer.y * frameHeight)
    let innerPx : Vec2 := (inner.x * frameWidth, inner.y * frameHeight)
    let eyeWidth := sq ((innerPx.1 - outerPx.1) ^ 2 + (innerPx.2 - outerPx.2) ^ 2)
    if eyeWidth < 1 then none
    else
      let eyeCenter : Vec2 := ((outerPx.1 + innerPx.1) / 2, (outerPx.2 + innerPx.2) / 2)
      let irisPx? : Option Vec2 :=
        if irisCenterIdx < lms.length then
          (lms.get? irisCenterIdx).map (fun iris => (iris.x * frameWidth, iris.y * frameHeight))
        else
          let topIdx := if eyeOuterIdx = LEFT_EYE_OUTER then LEFT_EYE_TOP else RIGHT_EYE_TOP
          let botIdx := if eyeOuterIdx = LEFT_EYE_OUTER then LEFT_EYE_BOTTOM else RIGHT_EYE_BOTTOM
          match lms.get? topIdx, lms.get? botIdx with
          | some top, some bot =>
            some ((outerPx.1 + innerPx.1 + top.x * frameWidth + bot.x * frameWidth) / 4,
                  (outerPx.2 + innerPx.2 + top.y * frameHeight + bot.y * frameHeight) / 4)
          | _, _ => none
      match irisPx? with
      | none => none
      | some irisPx =>
        let gazeX := (irisPx.1 - eyeCenter.1) / (eyeWidth / 2) * sensitivityX + offsetX
        let gazeY := (irisPx.2 - eyeCenter.2) / (eyeWidth / 4) * sensitivityY + offsetY
        some ((clip gazeX (-1) 1, clip gazeY (-1) 1), irisPx)
  | _, _ => none

/-- EyeGazeTracker._detect_blink.  A failing landmark lookup models the
IndexError or AttributeError caught by the try/except, in which case
both eyes are reported as open. -/
def detectBlink (lms : List Landmark) (frameHeight : ℚ) : Bool × Bool :=
  match lms.get? LEFT_EYE_TOP, lms.get? LEFT_EYE_BOTTOM,
        lms.get? RIGHT_EYE_TOP, lms.get? RIGHT_EYE_BOTTOM with
  | some lt, some lb, some rt, some rb =>
    let leftEar := |lb.y * frameHeight - lt.y * frameHeight|
    let rightEar := |rb.y * frameHeight - rt.y * frameHeight|
    (decide (leftEar < 5), decide (rightEar < 5))
  | _, _, _, _ => (false, false)

/-- The per-eye section of EyeGazeTracker.process_frame: when the
estimator produced a gaze vector the Kalman filter for that eye is
updated and the filtered vector plus the iris center are recorded;
otherwise the filter is untouched and nothing is recorded. -/
def eyeStep (g? : Option (Vec2 × Vec2)) (kf : KalmanFilter2D) :
    KalmanFilter2D × Option Vec2 × Option Vec2 :=
  match g? with
  | some gi => ((kalmanUpdate kf gi.1).2, some (kalmanUpdate kf gi.1).1, some gi.2)
  | none => (kf, none, none)

/-- The blink gate of EyeGazeTracker.process_frame: a blinking eye
skips estimation and filtering entirely. -/
def processEye (blink : Bool) (g? : Option (Vec2 × Vec2)) (kf : KalmanFilter2D) :
    KalmanFilter2D × Option Vec2 × Option Vec2 :=
  if blink then (kf, none, none) else eyeStep g? kf

/-- The gaze combination section of EyeGazeTracker.process_frame:
returns the combined gaze, the confidence and the (possibly updated)
combined Kalman filter. -/
def combineStep (left right : Option Vec2) (ck : KalmanFilter2D) :
    Option Vec2 × ℚ × KalmanFilter2D :=
  match left, right with
  | some l, some r =>
    let c : Vec2 := ((l.1 + r.1) / 2, (l.2 + r.2) / 2)
    (some (kalmanUpdate ck c).1, 1, (kalmanUpdate ck c).2)
  | some l, none => (some l, 7 / 10, ck)
  | none, some r => (some r, 7 / 10, ck)
  | none, none => (none, 0, ck)

/-- The screen mapping section of EyeGazeTracker.process_frame: maps
the combined gaze to pixels, applies exponential smoothing against the
previous screen point when one exists, and returns the screen point of
the frame together with the new stored previous screen point. -/
def screenStep (combined : Option Vec2) (prev : Option (ℤ × ℤ))
    (screenWidth screenHeight : ℤ) (smoothingFactor : ℚ) :
    Option (ℤ × ℤ) × Option (ℤ × ℤ) :=
  match combined with
  | none => (none, prev)
  | some g =>
    let sx0 := pyInt ((g.1 + 1) / 2 * (screenWidth : ℚ))
    let sy0 := pyInt ((g.2 + 1) / 2 * (screenHeight : ℚ))
    match prev with
    | some p =>
      let sx := pyInt (smoothingFactor * (sx0 : ℚ) + (1 - smoothingFactor) * (p.1 : ℚ))
      let sy := pyInt (smoothingFactor * (sy0 : ℚ) + (1 - smoothingFactor) * (p.2 : ℚ))
      (some (sx, sy), some (sx, sy))
    | none => (some (sx0, sy0), some (sx0, sy0))

/-- CalibrationMode from calibration.py. -/
inductive CalibrationMode where
  | affine
  | polynomial
deriving DecidableEq

/-- The minimum point count of CalibrationTool._compute_calibration:
6 for polynomial mode, 4 for affine mode. -/
def minPoints : CalibrationMode → ℕ
  | CalibrationMode.polynomial => 6
  | CalibrationMode.affine => 4

/-- The feature row built from a gaze vector, shared by the design
matrix of _compute_calibration and by gaze_to_screen. -/
def gazeFeatures : CalibrationMode → Vec2 → List ℚ
  | CalibrationMode.polynomial, g => [1, g.1, g.2, g.1 * g.1, g.2 * g.2, g.1 * g.2]
  | CalibrationMode.affine, g => [1, g.1, g.2]

/-- CalibrationTool state: mode, screen dimensions, collected
calibration data (target point with its gaze samples), and the three
optional transform fields. -/
structure CalibState where
  mode : CalibrationMode
  screenWidth : ℤ
  screenHeight : ℤ
  calibrationData : List ((ℤ × ℤ) × List Vec2)
  transformMatrix : Option (List ℚ × List ℚ)
  transformX : Option (List ℚ)
  transformY : Option (List ℚ)

/-- Componentwise mean of gaze samples (np.mean with axis 0). -/
def meanVec (samples : List Vec2) : Vec2 :=
  (meanQ (samples.map Prod.fst), meanQ (samples.map Prod.snd))

/-- CalibrationTool._compute_calibration.  The np.linalg.lstsq call is
an external library routine, modelled by the lstsq parameter mapping a
design matrix (list of feature rows) and a target column to a
coefficient vector; the refusal guard and the state mutation are
modelled exactly. -/
def computeCalibration (lstsq : List (List ℚ) → List ℚ → List ℚ)
    (c : CalibState) : CalibState :=
  if c.calibrationData.length < minPoints c.mode then c
  else
    let gazePoints := c.calibrationData.map (fun pd => meanVec pd.2)
    let A := gazePoints.map (gazeFeatures c.mode)
    let tx := lstsq A (c.calibrationData.map (fun pd => ((pd.1.1 : ℚ))))
    let ty := lstsq A (c.calibrationData.map (fun pd => ((pd.1.2 : ℚ))))
    { c with transformX := some tx, transformY := some ty,
             transformMatrix := some (tx, ty) }

/-- CalibrationTool.run_calibration with the interactive collection
loop abstracted: collected is the list of (point, samples) pairs the
loop appended, and allPointsCollected is whether every point was
recorded without the user cancelling.  On success the fit is computed
and True is returned regardless of whether the fit refused. -/
def runCalibration (lstsq : List (List ℚ) → List ℚ → List ℚ)
    (c : CalibState) (collected : List ((ℤ × ℤ) × List Vec2))
    (allPointsCollected : Bool) : Bool × CalibState :=
  if allPointsCollected then
    (true, computeCalibration lstsq { c with calibrationData := collected })
  else (false, { c with calibrationData := collected })

/-- CalibrationTool.gaze_to_screen: with a fitted model, dot the
feature row with each coefficient vector and clamp into the screen
bounds; without one, fall back to the plain linear mapping, which is
not clamped. -/
def gazeToScreen (c : CalibState) (gaze : Vec2) : ℤ × ℤ :=
  match c.transformMatrix, c.transformX, c.transformY with
  | some _, some tx, some ty =>
    let feats := gazeFeatures c.mode gaze
    let x := pyInt (dotL tx feats)
    let y := pyInt (dotL ty feats)
    (max 0 (min (c.screenWidth - 1) x), max 0 (min (c.screenHeight - 1) y))
  | _, _, _ =>
    (pyInt ((gaze.1 + 1) / 2 * (c.screenWidth : ℚ)),
     pyInt ((gaze.2 + 1) / 2 * (c.screenHeight : ℚ)))

/-- One measurement of QuickCalibration._collect_point: the target
pixel position and the averaged measured gaze. -/
structure CalMeasurement where
  targetX : ℤ
  targetY : ℤ
  measuredX : ℚ
  measuredY : ℚ
deriving DecidableEq

/-- The expected normalized gaze of a target, from
QuickCalibration._collect_point. -/
def expectedX (screenWidth : ℤ) (targetX : ℤ) : ℚ :=
  (targetX : ℚ) / (screenWidth : ℚ) * 2 - 1

/-- The expected normalized gaze of a target, from
QuickCalibration._collect_point. -/
def expectedY (screenHeight : ℤ) (targetY : ℤ) : ℚ :=
  (targetY : ℚ) / (screenHeight : ℚ) * 2 - 1

/-- The per-point error of QuickCalibration._collect_point. -/
def errorX (screenWidth : ℤ) (m : CalMeasurement) : ℚ :=
  expectedX screenWidth m.targetX - m.measuredX

/-- The per-point error of QuickCalibration._collect_point. -/
def errorY (screenHeight : ℤ) (m : CalMeasurement) : ℚ :=
  expectedY screenHeight m.targetY - m.measuredY

/-- QuickCalibration._compute_offsets: mean error added to the current
offsets, clamped into [-1, 1]. -/
def computeOffsets (screenWidth screenHeight : ℤ) (offsetX offsetY : ℚ)
    (ms : List CalMeasurement) : ℚ × ℚ :=
  let avgErrorX := meanQ (ms.map (errorX screenWidth))
  let avgErrorY := meanQ (ms.map (errorY screenHeight))
  (clip (offsetX + avgErrorX) (-1) 1, clip (offsetY + avgErrorY) (-1) 1)

/-- Concrete fresh plain filter, used by witnesses. -/
def kfFresh : KalmanFilter2D := kalmanInit (1 / 10000) (1 / 100)

/-- Concrete fresh adaptive filter at the documented default
parameters, used by witnesses. -/
def afFresh : AdaptiveKalmanFilter2D :=
  adaptiveInit (1 / 10000) (1 / 100) (1 / 50) (3 / 20) 3 (3 / 10)

/-- Concrete measurement, used by witnesses. -/
def mW : Vec2 := (1 / 2, -(1 / 3))

/-- C1: update on a filter that is not initialized (as after
construction or reset, so with zero velocity components) returns
exactly the measurement, writes it into the position components with
zero velocity, marks the filter initialized, and performs no predict
step and no gain computation: the covariance and the noise matrices
are untouched, and for the adaptive variant the velocity history is
untouched as well.  Both KalmanFilter2D and AdaptiveKalmanFilter2D are
covered. -/
theorem C1_first_update_bypass
    (kf : KalmanFilter2D) (af : AdaptiveKalmanFilter2D) (sq : ℚ → ℚ) (m : Vec2)
    (hk : kf.initialized = false) (hk2 : kf.state 2 = 0) (hk3 : kf.state 3 = 0)
    (ha : af.initialized = false) (ha2 : af.state 2 = 0) (ha3 : af.state 3 = 0) :
    ((kalmanUpdate kf m).1 = m ∧
      (kalmanUpdate kf m).2.state 0 = m.1 ∧
      (kalmanUpdate kf m).2.state 1 = m.2 ∧
      (kalmanUpdate kf m).2.state 2 = 0 ∧
      (kalmanUpdate kf m).2.state 3 = 0 ∧
      (kalmanUpdate kf m).2.initialized = true ∧
      (kalmanUpdate kf m).2.P = kf.P ∧
      (kalmanUpdate kf m).2.Q = kf.Q ∧
      (kalmanUpdate kf m).2.R = kf.R) ∧
    ((adaptiveUpdate sq af m).1 = m ∧
      (adaptiveUpdate sq af m).2.state 0 = m.1 ∧
      (adaptiveUpdate sq af m).2.state 1 = m.2 ∧
      (adaptiveUpdate sq af m).2.state 2 = 0 ∧
      (adaptiveUpdate sq af m).2.state 3 = 0 ∧
      (adaptiveUpdate sq af m).2.initialized = true ∧
      (adaptiveUpdate sq af m).2.P = af.P ∧
      (adaptiveUpdate sq af m).2.Q = af.Q ∧
      (adaptiveUpdate sq af m).2.R = af.R ∧
      (adaptiveUpdate sq af m).2.velocityHistory = af.velocityHistory) := by
  constructor
  · simp [kalmanUpdate, hk, hk2, hk3]
  · simp [adaptiveUpdate, ha, ha2, ha3]

/-- C1 witness: the bypass theorem applied to concretely constructed
filters and the measurement (1/2, -1/3). -/
theorem C1_first_update_bypass_witness :
    (kfFresh.initialized = false ∧ kfFresh.state 2 = 0 ∧ kfFresh.state 3 = 0 ∧
      afFresh.initialized = false ∧ afFresh.state 2 = 0 ∧ afFresh.state 3 = 0) ∧
    ((kalmanUpdate kfFresh mW).1 = mW ∧
      (kalmanUpdate kfFresh mW).2.state 0 = mW.1 ∧
      (kalmanUpdate kfFresh mW).2.state 1 = mW.2 ∧
      (kalmanUpdate kfFresh mW).2.state 2 = 0 ∧
      (kalmanUpdate kfFresh mW).2.state 3 = 0 ∧
      (kalmanUpdate kfFresh mW).2.initialized = true ∧
      (kalmanUpdate kfFresh mW).2.P = kfFresh.P ∧
      (kalmanUpdate kfFresh mW).2.Q = kfFresh.Q ∧
      (kalmanUpdate kfFresh mW).2.R = kfFresh.R) ∧
    ((adaptiveUpdate id afFresh mW).1 = mW ∧
      (adaptiveUpdate id afFresh mW).2.state 0 = mW.1 ∧
      (adaptiveUpdate id afFresh mW).2.state 1 = mW.2 ∧
      (adaptiveUpdate id afFresh mW).2.state 2 = 0 ∧
      (adaptiveUpdate id afFresh mW).2.state 3 = 0 ∧
      (adaptiveUpdate id afFresh mW).2.initialized = true ∧
      (adaptiveUpdate id afFresh mW).2.P = afFresh.P ∧
      (adaptiveUpdate id afFresh mW).2.Q = afFresh.Q ∧
      (adaptiveUpdate id afFresh mW).2.R = afFresh.R ∧
      (adaptiveUpdate id afFresh mW).2.velocityHistory = afFresh.velocityHistory) :=
  ⟨⟨rfl, rfl, rfl, rfl, rfl, rfl⟩,
    C1_first_update_bypass kfFresh afFresh id mW rfl rfl rfl rfl rfl rfl⟩

/-- C4: the adaptive measurement noise multiplier equals the dwell
multiplier at or below the low threshold, the rapid multiplier at or
above the high threshold, and the smoothstep blend strictly in between;
the measurement noise scalar is this multiplier times the base noise;
and at the documented defaults the velocities 0.01, 0.20 and 0.085
give multipliers 3, 0.3 and the midpoint blend 1.65. -/
theorem C4_adaptive_noise_schedule
    (low high dwell rapid v : ℚ) (sq : ℚ → ℚ) (f : AdaptiveKalmanFilter2D)
    (hlh : low < high) :
    (v ≤ low → adaptiveMultiplier low high dwell rapid v = dwell) ∧
    (high ≤ v → adaptiveMultiplier low high dwell rapid v = rapid) ∧
    (low < v → v < high →
      adaptiveMultiplier low high dwell rapid v =
        dwell + (((v - low) / (high - low)) * ((v - low) / (high - low)) *
          (3 - 2 * ((v - low) / (high - low)))) * (rapid - dwell)) ∧
    adaptiveMeasurementNoiseScalar sq f =
      f.baseMeasurementNoise *
        adaptiveMultiplier f.lowVelocityThreshold f.highVelocityThreshold
          f.dwellMeasurementMultiplier f.rapidMeasurementMultiplier
          (adaptiveGetSmoothedVelocity sq f) ∧
    adaptiveMultiplier (1 / 50) (3 / 20) 3 (3 / 10) (1 / 100) = 3 ∧
    adaptiveMultiplier (1 / 50) (3 / 20) 3 (3 / 10) (1 / 5) = 3 / 10 ∧
    adaptiveMultiplier (1 / 50) (3 / 20) 3 (3 / 10) (17 / 200) = 33 / 20 := by
  refine ⟨?_, ?_, ?_, rfl, ?_, ?_, ?_⟩
  · intro h
    simp [adaptiveMultiplier, h]
  · intro h
    simp only [adaptiveMultiplier]
    rw [if_neg (by linarith), if_pos h]
  · intro h1 h2
    simp only [adaptiveMultiplier]
    rw [if_neg (by linarith), if_neg (by linarith)]
  · norm_num [adaptiveMultiplier]
  · norm_num [adaptiveMultiplier]
  · norm_num [adaptiveMultiplier]

/-- C4 witness: the schedule theorem at the documented default
parameters with smoothed velocity 17/200 = 0.085 and a concretely
constructed adaptive filter. -/
theorem C4_adaptive_noise_schedule_witness :
    (1 / 50 : ℚ) < 3 / 20 ∧
    (((17 / 200 : ℚ) ≤ 1 / 50 → adaptiveMultiplier (1 / 50) (3 / 20) 3 (3 / 10) (17 / 200) = 3) ∧
      ((3 / 20 : ℚ) ≤ 17 / 200 → adaptiveMultiplier (1 / 50) (3 / 20) 3 (3 / 10) (17 / 200) = 3 / 10) ∧
      ((1 / 50 : ℚ) < 17 / 200 → (17 / 200 : ℚ) < 3 / 20 →
        adaptiveMultiplier (1 / 50) (3 / 20) 3 (3 / 10) (17 / 200) =
          3 + ((((17 : ℚ) / 200 - 1 / 50) / (3 / 20 - 1 / 50)) * (((17 : ℚ) / 200 - 1 / 50) / (3 / 20 - 1 / 50)) *
            (3 - 2 * (((17 : ℚ) / 200 - 1 / 50) / (3 / 20 - 1 / 50)))) * (3 / 10 - 3)) ∧
      adaptiveMeasurementNoiseScalar id afFresh =
        afFresh.baseMeasurementNoise *
          adaptiveMultiplier afFresh.lowVelocityThreshold afFresh.highVelocityThreshold
            afFresh.dwellMeasurementMultiplier afFresh.rapidMeasurementMultiplier
            (adaptiveGetSmoothedVelocity id afFresh) ∧
      adaptiveMultiplier (1 / 50) (3 / 20) 3 (3 / 10) (1 / 100) = 3 ∧
      adaptiveMultiplier (1 / 50) (3 / 20) 3 (3 / 10) (1 / 5) = 3 / 10 ∧
      adaptiveMultiplier (1 / 50) (3 / 20) 3 (3 / 10) (17 / 200) = 33 / 20) :=
  ⟨by norm_num,
    C4_adaptive_noise_schedule (1 / 50) (3 / 20) 3 (3 / 10) (17 / 200) id afFresh (by norm_num)⟩

/-- C5: per frame, two filtered eye vectors are averaged and passed
through the combined Kalman filter with confidence 1; a single eye
vector is used directly, bypassing (and not mutating) the combined
filter, with confidence 0.7; with no eye vector there is no combined
gaze, the confidence stays 0, no screen point is produced and the
stored previous screen point is not advanced. -/
theorem C5_combine_confidence
    (l r : Vec2) (ck : KalmanFilter2D) (prev : Option (ℤ × ℤ))
    (screenWidth screenHeight : ℤ) (alpha : ℚ) :
    combineStep (some l) (some r) ck =
      (some (kalmanUpdate ck ((l.1 + r.1) / 2, (l.2 + r.2) / 2)).1, 1,
        (kalmanUpdate ck ((l.1 + r.1) / 2, (l.2 + r.2) / 2)).2) ∧
    combineStep (some l) none ck = (some l, 7 / 10, ck) ∧
    combineStep none (some r) ck = (some r, 7 / 10, ck) ∧
    combineStep none none ck = (none, 0, ck) ∧
    screenStep none prev screenWidth screenHeight alpha = (none, prev) :=
  ⟨rfl, rfl, rfl, rfl, rfl⟩

/-- C6: whenever a combined gaze exists the screen point is the linear
pixel mapping of the gaze, smoothed against the previous screen point
when one exists, and the result is stored as the new previous screen
point. -/
theorem C6_screen_mapping
    (g : Vec2) (px py screenWidth screenHeight : ℤ) (alpha : ℚ) :
    screenStep (some g) none screenWidth screenHeight alpha =
      (some (pyInt ((g.1 + 1) / 2 * (screenWidth : ℚ)),
             pyInt ((g.2 + 1) / 2 * (screenHeight : ℚ))),
       some (pyInt ((g.1 + 1) / 2 * (screenWidth : ℚ)),
             pyInt ((g.2 + 1) / 2 * (screenHeight : ℚ)))) ∧
    screenStep (some g) (some (px, py)) screenWidth screenHeight alpha =
      (some (pyInt (alpha * (pyInt ((g.1 + 1) / 2 * (screenWidth : ℚ)) : ℚ) + (1 - alpha) * (px : ℚ)),
             pyInt (alpha * (pyInt ((g.2 + 1) / 2 * (screenHeight : ℚ)) : ℚ) + (1 - alpha) * (py : ℚ))),
       some (pyInt (alpha * (pyInt ((g.1 + 1) / 2 * (screenWidth : ℚ)) : ℚ) + (1 - alpha) * (px : ℚ)),
             pyInt (alpha * (pyInt ((g.2 + 1) / 2 * (screenHeight : ℚ)) : ℚ) + (1 - alpha) * (py : ℚ)))) ∧
    (screenStep (some g) (some (px, py)) screenWidth screenHeight alpha).2 =
      (screenStep (some g) (some (px, py)) screenWidth screenHeight alpha).1 :=
  ⟨rfl, rfl, rfl⟩

/-- CalibrationTool state with no fitted model and a 1920 by 1080
screen, as freshly constructed. -/
def calibNoModel : CalibState :=
  { mode := CalibrationMode.polynomial, screenWidth := 1920, screenHeight := 1080,
    calibrationData := [], transformMatrix := none, transformX := none,
    transformY := none }

/-- C2 counterexample: without a fitted model, gaze_to_screen falls
back to the plain linear mapping, which is not clamped, so the
out-of-domain gaze (5, -5) yields (5760, -2160), far outside the
screen bounds [0, 1919] x [0, 1079]. -/
theorem C2_counterexample :
    gazeToScreen calibNoModel (5, -5) = (5760, -2160) ∧
    ¬(0 ≤ (gazeToScreen calibNoModel (5, -5)).1 ∧
      (gazeToScreen calibNoModel (5, -5)).1 ≤ 1920 - 1 ∧
      0 ≤ (gazeToScreen calibNoModel (5, -5)).2 ∧
      (gazeToScreen calibNoModel (5, -5)).2 ≤ 1080 - 1) := by
  have h : gazeToScreen calibNoModel (5, -5) = (5760, -2160) := by
    norm_num [gazeToScreen, calibNoModel, pyInt]
    decide
  refine ⟨h, ?_⟩
  rw [h]
  norm_num

/-- C2 amended: whenever a fitted model is present (all three
transform fields set) and the screen dimensions are positive,
gaze_to_screen clamps both coordinates into
[0, width - 1] x [0, height - 1] for every gaze vector; without a
model the unclamped linear fallback applies instead (see the
counterexample). -/
theorem C2_gaze_to_screen_clamped_with_model
    (c : CalibState) (g : Vec2) (tm : List ℚ × List ℚ) (tx ty : List ℚ)
    (hm : c.transformMatrix = some tm) (hx : c.transformX = some tx)
    (hy : c.transformY = some ty) (hW : 1 ≤ c.screenWidth)
    (hH : 1 ≤ c.screenHeight) :
    0 ≤ (gazeToScreen c g).1 ∧ (gazeToScreen c g).1 ≤ c.screenWidth - 1 ∧
    0 ≤ (gazeToScreen c g).2 ∧ (gazeToScreen c g).2 ≤ c.screenHeight - 1 := by
  have hcl : ∀ W x : ℤ, 1 ≤ W →
      0 ≤ max 0 (min (W - 1) x) ∧ max 0 (min (W - 1) x) ≤ W - 1 := by
    intro W x hW1
    constructor <;> omega
  simp only [gazeToScreen, hm, hx, hy]
  exact ⟨(hcl _ _ hW).1, (hcl _ _ hW).2, (hcl _ _ hH).1, (hcl _ _ hH).2⟩

/-- CalibrationTool state holding a fitted affine model, used by the
C2 witness. -/
def calibWithModel : CalibState :=
  { mode := CalibrationMode.affine, screenWidth := 1920, screenHeight := 1080,
    calibrationData := [],
    transformMatrix := some ([960, 400, 0], [540, 0, 300]),
    transformX := some [960, 400, 0], transformY := some [540, 0, 300] }

/-- C2 witness: the amended theorem at a concrete fitted state and the
gaze (0, 0). -/
theorem C2_gaze_to_screen_clamped_witness :
    calibWithModel.transformMatrix = some ([960, 400, 0], [540, 0, 300]) ∧
    calibWithModel.transformX = some [960, 400, 0] ∧
    calibWithModel.transformY = some [540, 0, 300] ∧
    1 ≤ calibWithModel.screenWidth ∧ 1 ≤ calibWithModel.screenHeight ∧
    (0 ≤ (gazeToScreen calibWithModel (0, 0)).1 ∧
      (gazeToScreen calibWithModel (0, 0)).1 ≤ calibWithModel.screenWidth - 1 ∧
      0 ≤ (gazeToScreen calibWithModel (0, 0)).2 ∧
      (gazeToScreen calibWithModel (0, 0)).2 ≤ calibWithModel.screenHeight - 1) :=
  ⟨rfl, rfl, rfl, by decide, by decide,
    C2_gaze_to_screen_clamped_with_model calibWithModel (0, 0) _ _ _ rfl rfl rfl
      (by decide) (by decide)⟩

/-- C3 amended theorem: with fewer calibration points than the minimum
of the selected mode, _compute_calibration returns with the whole
state, in particular transform_x, transform_y and transform_matrix,
unchanged. -/
theorem C3_insufficient_points_preserve_model
    (lstsq : List (List ℚ) → List ℚ → List ℚ) (c : CalibState)
    (h : c.calibrationData.length < minPoints c.mode) :
    computeCalibration lstsq c = c := by
  unfold computeCalibration
  rw [if_pos h]

/-- A stand-in least squares solver, used by concrete calibration
theorems whose conclusions do not depend on the solver. -/
def zeroSolver : List (List ℚ) → List ℚ → List ℚ := fun _ _ => []

/-- CalibrationTool state in polynomial mode with three collected
points and a previously loaded model, used by the C3 witness. -/
def calibThreePoints : CalibState :=
  { mode := CalibrationMode.polynomial, screenWidth := 1920, screenHeight := 1080,
    calibrationData := [((192, 108), [(0, 0)]), ((960, 540), [(0, 0)]),
      ((1728, 972), [(0, 0)])],
    transformMatrix := some ([1], [2]), transformX := some [1],
    transformY := some [2] }

/-- C3 witness: only 3 points in polynomial mode (minimum 6), the fit
leaves the state untouched. -/
theorem C3_insufficient_points_preserve_model_witness :
    calibThreePoints.calibrationData.length < minPoints calibThreePoints.mode ∧
    computeCalibration zeroSolver calibThreePoints = calibThreePoints :=
  ⟨by decide,
    C3_insufficient_points_preserve_model zeroSolver calibThreePoints (by decide)⟩

/-- CalibrationTool state in polynomial mode with a previously stored
model and no data yet, used by the C3 counterexample. -/
def calibPrior : CalibState :=
  { mode := CalibrationMode.polynomial, screenWidth := 1920, screenHeight := 1080,
    calibrationData := [], transformMatrix := some ([1], [2]),
    transformX := some [1], transformY := some [2] }

/-- Data of a completed 5 point calibration session, used by the C3
counterexample. -/
def fivePointData : List ((ℤ × ℤ) × List Vec2) :=
  [((192, 108), [(0, 0)]), ((1728, 108), [(1 / 2, 0)]), ((960, 540), [(0, 1 / 2)]),
   ((192, 972), [(-(1 / 2), 0)]), ((1728, 972), [(0, -(1 / 2))])]

/-- C3 counterexample: a completed calibration session in polynomial
mode with the documented 5 point layout hands 5 collected points
(fewer than the 6 the polynomial fit needs) to the fit; the fit
refuses and the stored model is preserved, yet run_calibration still
returns success (True) — contrary to the claim, no failure is
returned. -/
theorem C3_counterexample :
    (runCalibration zeroSolver calibPrior fivePointData true).1 = true ∧
    (runCalibration zeroSolver calibPrior fivePointData true).2.transformX = some [1] ∧
    (runCalibration zeroSolver calibPrior fivePointData true).2.transformY = some [2] ∧
    (runCalibration zeroSolver calibPrior fivePointData true).2.transformMatrix =
      some ([1], [2]) := by
  refine ⟨rfl, ?_, ?_, ?_⟩ <;> decide

/-- C7: the quick offset calibrator returns the current offsets plus
the mean per-axis error (expected minus measured), clamped into
[-1, 1]; and when every measured gaze equals its expected value the
returned offsets equal the currently configured offsets unchanged,
provided those already lie in [-1, 1]. -/
theorem C7_quick_offsets_identity
    (screenWidth screenHeight : ℤ) (offsetX offsetY : ℚ)
    (ms : List CalMeasurement) (_hlen : ms.length = 5)
    (hx : ∀ m ∈ ms, m.measuredX = expectedX screenWidth m.targetX)
    (hy : ∀ m ∈ ms, m.measuredY = expectedY screenHeight m.targetY)
    (hox1 : -1 ≤ offsetX) (hox2 : offsetX ≤ 1)
    (hoy1 : -1 ≤ offsetY) (hoy2 : offsetY ≤ 1) :
    computeOffsets screenWidth screenHeight offsetX offsetY ms =
      (clip (offsetX + meanQ (ms.map (errorX screenWidth))) (-1) 1,
       clip (offsetY + meanQ (ms.map (errorY screenHeight))) (-1) 1) ∧
    computeOffsets screenWidth screenHeight offsetX offsetY ms =
      (offsetX, offsetY) := by
  refine ⟨rfl, ?_⟩
  have hex : meanQ (ms.map (errorX screenWidth)) = 0 := by
    have hz : ∀ q ∈ ms.map (errorX screenWidth), q = 0 := by
      intro q hq
      rcases List.mem_map.1 hq with ⟨m, hm, rfl⟩
      simp [errorX, hx m hm]
    simp [meanQ, List.sum_eq_zero hz]
  have hey : meanQ (ms.map (errorY screenHeight)) = 0 := by
    have hz : ∀ q ∈ ms.map (errorY screenHeight), q = 0 := by
      intro q hq
      rcases List.mem_map.1 hq with ⟨m, hm, rfl⟩
      simp [errorY, hy m hm]
    simp [meanQ, List.sum_eq_zero hz]
  simp only [computeOffsets, hex, hey, add_zero, clip]
  rw [min_eq_right hox2, max_eq_right hox1, min_eq_right hoy2, max_eq_right hoy1]

/-- The five measurements of a perfect quick calibration run at the
documented target layout on a 1920 by 1080 screen: each measured gaze
equals the expected normalized position of its target. -/
def quickMs : List CalMeasurement :=
  [⟨960, 540, 0, 0⟩, ⟨960, 150, 0, -(13 / 18)⟩, ⟨960, 930, 0, 13 / 18⟩,
   ⟨150, 540, -(27 / 32), 0⟩, ⟨1770, 540, 27 / 32, 0⟩]

/-- C7 witness: a perfect five point run with configured offsets
(1/10, -1/5) returns exactly those offsets. -/
theorem C7_quick_offsets_identity_witness :
    quickMs.length = 5 ∧
    (-1 : ℚ) ≤ 1 / 10 ∧ (1 / 10 : ℚ) ≤ 1 ∧
    (-1 : ℚ) ≤ -(1 / 5) ∧ (-(1 / 5) : ℚ) ≤ 1 ∧
    (computeOffsets 1920 1080 (1 / 10) (-(1 / 5)) quickMs =
      (clip (1 / 10 + meanQ (quickMs.map (errorX 1920))) (-1) 1,
       clip (-(1 / 5) + meanQ (quickMs.map (errorY 1080))) (-1) 1) ∧
     computeOffsets 1920 1080 (1 / 10) (-(1 / 5)) quickMs = (1 / 10, -(1 / 5))) :=
  ⟨rfl, by norm_num, by norm_num, by norm_num, by norm_num,
    C7_quick_offsets_identity 1920 1080 (1 / 10) (-(1 / 5)) quickMs rfl
      (by intro m hm
          simp only [quickMs, List.mem_cons, List.not_mem_nil, or_false] at hm
          rcases hm with h | h | h | h | h <;> subst h <;> norm_num [expectedX])
      (by intro m hm
          simp only [quickMs, List.mem_cons, List.not_mem_nil, or_false] at hm
          rcases hm with h | h | h | h | h <;> subst h <;> norm_num [expectedY])
      (by norm_num) (by norm_num) (by norm_num) (by norm_num)⟩

/-- C8: when the pixel distance between the inner and outer eye corner
landmarks is below one pixel (stated on the squared distance, and with
the square root parameter assumed to agree with the order at the unit
threshold, as the genuine square root does), the gaze estimator
returns none for that eye, and the per-eye frame step then leaves the
Kalman filter of that eye untouched and records no vector. -/
theorem C8_degenerate_eye_geometry
    (sq : ℚ → ℚ) (lms : List Landmark) (eyeOuterIdx eyeInnerIdx irisCenterIdx : ℕ)
    (frameWidth frameHeight sensitivityX sensitivityY offsetX offsetY : ℚ)
    (outer inner : Landmark) (kf : KalmanFilter2D)
    (hsq : ∀ q : ℚ, 0 ≤ q → (sq q < 1 ↔ q < 1))
    (ho : lms.get? eyeOuterIdx = some outer)
    (hi : lms.get? eyeInnerIdx = some inner)
    (hdeg : (inner.x * frameWidth - outer.x * frameWidth) ^ 2 +
            (inner.y * frameHeight - outer.y * frameHeight) ^ 2 < 1) :
    getIrisPosition sq lms eyeOuterIdx eyeInnerIdx irisCenterIdx
      frameWidth frameHeight sensitivityX sensitivityY offsetX offsetY = none ∧
    eyeStep (getIrisPosition sq lms eyeOuterIdx eyeInnerIdx irisCenterIdx
      frameWidth frameHeight sensitivityX sensitivityY offsetX offsetY) kf =
      (kf, none, none) := by
  have hnn : (0 : ℚ) ≤ (inner.x * frameWidth - outer.x * frameWidth) ^ 2 +
      (inner.y * frameHeight - outer.y * frameHeight) ^ 2 := by positivity
  have hlt : sq ((inner.x * frameWidth - outer.x * frameWidth) ^ 2 +
      (inner.y * frameHeight - outer.y * frameHeight) ^ 2) < 1 := (hsq _ hnn).2 hdeg
  have hmain : getIrisPosition sq lms eyeOuterIdx eyeInnerIdx irisCenterIdx
      frameWidth frameHeight sensitivityX sensitivityY offsetX offsetY = none := by
    simp only [getIrisPosition]
    rw [ho, hi]
    simp [hlt]
  exact ⟨hmain, by rw [hmain]; rfl⟩

/-- Two coincident landmarks: eye corners with zero pixel distance. -/
def lmsDegenerate : List Landmark := [⟨1 / 4, 1 / 4⟩, ⟨1 / 4, 1 / 4⟩]

/-- C8 witness: coincident eye corners on a 640 by 480 frame give no
gaze vector and leave the filter untouched (with the identity standing
in for the square root, which is legitimate at the unit threshold). -/
theorem C8_degenerate_eye_geometry_witness :
    lmsDegenerate.get? 0 = some ⟨1 / 4, 1 / 4⟩ ∧
    lmsDegenerate.get? 1 = some ⟨1 / 4, 1 / 4⟩ ∧
    ((1 / 4 : ℚ) * 640 - (1 / 4) * 640) ^ 2 +
      ((1 / 4 : ℚ) * 480 - (1 / 4) * 480) ^ 2 < 1 ∧
    getIrisPosition id lmsDegenerate 0 1 2 640 480 (5 / 2) 3 0 (3 / 10) = none ∧
    eyeStep (getIrisPosition id lmsDegenerate 0 1 2 640 480 (5 / 2) 3 0 (3 / 10))
      kfFresh = (kfFresh, none, none) := by
  refine ⟨rfl, rfl, by norm_num, ?_⟩
  exact C8_degenerate_eye_geometry id lmsDegenerate 0 1 2 640 480 (5 / 2) 3 0 (3 / 10)
    ⟨1 / 4, 1 / 4⟩ ⟨1 / 4, 1 / 4⟩ kfFresh (fun q _ => Iff.rfl) rfl rfl (by norm_num)

/-- C9: starting from a velocity history of at most 5 entries, an
update keeps the history at most 5 entries long; a post-initialization
update produces exactly the history obtained by appending one velocity
magnitude and dropping the oldest entry when the length exceeds 5,
while a first (initializing) update leaves the history untouched;
reset empties the history; and the smoothed velocity is the mean of
the history, falling back to the instantaneous velocity when the
history is empty. -/
theorem C9_velocity_history_invariant
    (sq : ℚ → ℚ) (f : AdaptiveKalmanFilter2D) (m : Vec2)
    (h5 : f.velocityHistory.length ≤ 5) :
    (adaptiveUpdate sq f m).2.velocityHistory.length ≤ 5 ∧
    (f.initialized = true → ∃ v,
      (adaptiveUpdate sq f m).2.velocityHistory =
        (if velocityHistorySize < (f.velocityHistory ++ [v]).length
          then (f.velocityHistory ++ [v]).drop 1 else f.velocityHistory ++ [v])) ∧
    (f.initialized = false →
      (adaptiveUpdate sq f m).2.velocityHistory = f.velocityHistory) ∧
    (adaptiveReset f).velocityHistory = [] ∧
    (f.velocityHistory = [] →
      adaptiveGetSmoothedVelocity sq f = adaptiveGetVelocity sq f) ∧
    (f.velocityHistory ≠ [] →
      adaptiveGetSmoothedVelocity sq f = meanQ f.velocityHistory) := by
  have hsm1 : f.velocityHistory = [] →
      adaptiveGetSmoothedVelocity sq f = adaptiveGetVelocity sq f := by
    intro h
    simp [adaptiveGetSmoothedVelocity, h]
  have hsm2 : f.velocityHistory ≠ [] →
      adaptiveGetSmoothedVelocity sq f = meanQ f.velocityHistory := by
    intro h
    simp [adaptiveGetSmoothedVelocity, h]
  have hlen : ∀ (hist : List ℚ) (v : ℚ), hist.length ≤ 5 →
      (if velocityHistorySize < (hist ++ [v]).length then (hist ++ [v]).drop 1
        else hist ++ [v]).length ≤ 5 := by
    intro hist v hh
    by_cases hgt : velocityHistorySize < (hist ++ [v]).length
    · rw [if_pos hgt]
      simp only [velocityHistorySize, List.length_append, List.length_singleton] at *
      simp only [List.length_drop, List.length_append, List.length_singleton]
      omega
    · rw [if_neg hgt]
      simp only [velocityHistorySize, List.length_append, List.length_singleton] at *
      omega
  cases hinit : f.initialized with
  | false =>
    have hupd : (adaptiveUpdate sq f m).2.velocityHistory = f.velocityHistory := by
      simp [adaptiveUpdate, hinit]
    exact ⟨by rw [hupd]; exact h5, fun hc => Bool.noConfusion hc, fun _ => hupd,
      rfl, hsm1, hsm2⟩
  | true =>
    have hpred : (adaptivePredict sq f).2.velocityHistory = f.velocityHistory := by
      simp [adaptivePredict, hinit]
    have hgain : (adaptiveGainStep sq f m).velocityHistory = f.velocityHistory := by
      simp only [adaptiveGainStep, hpred]
    have hupd : (adaptiveUpdate sq f m).2 =
        adaptiveUpdateVelocityHistory sq (adaptiveGainStep sq f m) := by
      unfold adaptiveUpdate
      rw [if_neg (by simp [hinit])]
    have hex : ∃ v, (adaptiveUpdate sq f m).2.velocityHistory =
        (if velocityHistorySize < (f.velocityHistory ++ [v]).length
          then (f.velocityHistory ++ [v]).drop 1 else f.velocityHistory ++ [v]) := by
      refine ⟨adaptiveGetVelocity sq (adaptiveGainStep sq f m), ?_⟩
      rw [hupd]
      simp only [adaptiveUpdateVelocityHistory, hgain]
    rcases hex with ⟨v, hv⟩
    exact ⟨by rw [hv]; exact hlen _ _ h5, fun _ => ⟨v, hv⟩,
      fun hc => Bool.noConfusion hc, rfl, hsm1, hsm2⟩

/-- C9 witness: the invariant theorem applied to a concrete adaptive
filter whose history is empty. -/
theorem C9_velocity_history_invariant_witness :
    afFresh.velocityHistory.length ≤ 5 ∧
    ((adaptiveUpdate id afFresh mW).2.velocityHistory.length ≤ 5 ∧
      (afFresh.initialized = true → ∃ v,
        (adaptiveUpdate id afFresh mW).2.velocityHistory =
          (if velocityHistorySize < (afFresh.velocityHistory ++ [v]).length
            then (afFresh.velocityHistory ++ [v]).drop 1
            else afFresh.velocityHistory ++ [v])) ∧
      (afFresh.initialized = false →
        (adaptiveUpdate id afFresh mW).2.velocityHistory = afFresh.velocityHistory) ∧
      (adaptiveReset afFresh).velocityHistory = [] ∧
      (afFresh.velocityHistory = [] →
        adaptiveGetSmoothedVelocity id afFresh = adaptiveGetVelocity id afFresh) ∧
      (afFresh.velocityHistory ≠ [] →
        adaptiveGetSmoothedVelocity id afFresh = meanQ afFresh.velocityHistory)) :=
  ⟨by decide, C9_velocity_history_invariant id afFresh mW (by decide)⟩

/-- C10: when an eyelid landmark lookup fails, blink detection reports
both eyes open (False, False), so the per-eye gaze estimation gate is
passed for both eyes and estimation is still attempted instead of the
frame being skipped as a blink. -/
theorem C10_blink_lookup_failure
    (lms : List Landmark) (frameHeight : ℚ) (gz : Option (Vec2 × Vec2))
    (kf : KalmanFilter2D)
    (h : lms.get? LEFT_EYE_TOP = none ∨ lms.get? LEFT_EYE_BOTTOM = none ∨
         lms.get? RIGHT_EYE_TOP = none ∨ lms.get? RIGHT_EYE_BOTTOM = none) :
    detectBlink lms frameHeight = (false, false) ∧
    processEye (detectBlink lms frameHeight).1 gz kf = eyeStep gz kf ∧
    processEye (detectBlink lms frameHeight).2 gz kf = eyeStep gz kf := by
  have hb : detectBlink lms frameHeight = (false, false) := by
    unfold detectBlink
    cases h1 : lms.get? LEFT_EYE_TOP with
    | none =>
      cases h2 : lms.get? LEFT_EYE_BOTTOM <;>
        cases h3 : lms.get? RIGHT_EYE_TOP <;>
          cases h4 : lms.get? RIGHT_EYE_BOTTOM <;> rfl
    | some lt =>
      cases h2 : lms.get? LEFT_EYE_BOTTOM with
      | none =>
        cases h3 : lms.get? RIGHT_EYE_TOP <;>
          cases h4 : lms.get? RIGHT_EYE_BOTTOM <;> rfl
      | some lb =>
        cases h3 : lms.get? RIGHT_EYE_TOP with
        | none => cases h4 : lms.get? RIGHT_EYE_BOTTOM <;> rfl
        | some rt =>
          cases h4 : lms.get? RIGHT_EYE_BOTTOM with
          | none => rfl
          | some rb =>
            exfalso
            rcases h with hh | hh | hh | hh
            · rw [h1] at hh; cases hh
            · rw [h2] at hh; cases hh
            · rw [h3] at hh; cases hh
            · rw [h4] at hh; cases hh
  refine ⟨hb, ?_, ?_⟩ <;> rw [hb] <;> rfl

/-- C10 witness: an empty landmark list (every lookup fails) yields
(False, False) and the estimation path is taken for both eyes. -/
theorem C10_blink_lookup_failure_witness :
    ([] : List Landmark).get? LEFT_EYE_TOP = none ∧
    (detectBlink [] 1 = (false, false) ∧
      processEye (detectBlink [] 1).1 none kfFresh = eyeStep none kfFresh ∧
      processEye (detectBlink [] 1).2 none kfFresh = eyeStep none kfFresh) :=
  ⟨rfl, C10_blink_lookup_failure [] 1 none kfFresh (Or.inl rfl)⟩
